import Mathlib

/-!
Shallow embedding of the task-tracking backend core
(`src/task_tracking_system`): the teams controller, the task controller
(validator, list, create, update, assign, complete) and the email
dispatch layer, together with the login-token shape produced by the
authentication controller and consumed by the shared middleware.
-/

namespace TaskTracking

/-- A stored User document (`models/users`): `_id`, `firstName`,
`lastName`, `email` (unique).  The password credential is opaque and
omitted; no embedded operation reads it. -/
structure User where
  uid : String
  firstName : String
  lastName : String
  email : String
deriving Repr, DecidableEq

/-- The decoded login token, exactly the payload signed by
`authenticationcontroller.post /login`:
`jwt.sign({email, id, firstName, lastName}, ...)`.  The shared
middleware sets `req.user` to this decoded object, so `req.user` is an
object with exactly these four keys.  We keep it as a key/value list so
that dynamic JavaScript property access (including access to an absent
key, which yields `undefined`) is modelled faithfully. -/
def decodedToken (u : User) : List (String × String) :=
  [("email", u.email), ("id", u.uid),
   ("firstName", u.firstName), ("lastName", u.lastName)]

/-- JavaScript property access on a plain object: a present key yields
its value, an absent key yields `undefined` (here `none`). -/
def getProp (o : List (String × String)) (k : String) : Option String :=
  (o.find? (fun p => p.fst == k)).map Prod.snd

/-- Mongoose `ObjectId.equals(x)`: `true` only when `x` is a defined id
equal to the receiver; comparing against `undefined` yields `false`. -/
def objectIdEquals (a : String) (b : Option String) : Bool :=
  match b with
  | some s => a == s
  | none => false

/-- JavaScript falsiness of a possibly-undefined string value:
`undefined` and the empty string are falsy. -/
def falsyStr : Option String → Bool
  | none => true
  | some s => s == ""

/-- A stored Team document (`models/teams`): `createdBy` is `required`
in the schema, so stored teams always carry it. -/
structure StoredTeam where
  tid : String
  name : String
  description : Option String
  members : List String
  createdBy : String
deriving Repr, DecidableEq

/-- A Team document as constructed by `new Team({...})` in the create
route, before the blank-`createdBy` check: `createdBy` may be
`undefined` there because it is read off `req.user`. -/
structure TeamDoc where
  name : String
  description : Option String
  members : List String
  createdBy : Option String
deriving Repr, DecidableEq

/-- `User.find({email: {$in: emails}})`: the stored users whose email is
among `emails`. -/
def findUsersByEmails (users : List User) (emails : List String) : List User :=
  users.filter (fun u => emails.contains u.email)

/-- Result of `teamsController.post /teams`. -/
inductive TeamsCreateRes where
  | badRequest (msg : String)
  | notFound (msg : String)
  | created (t : TeamDoc)
deriving Repr, DecidableEq

/-- `teamsController.post /teams` (teamscontroller.js lines 19-68),
running after the shared middleware has set `reqUser`:
requires truthy `name` and `memberEmails`; resolves `memberEmails`
against the user store; rejects on a count mismatch; builds the Team
with `createdBy: req.user._id`; rejects when `createdBy` is blank;
otherwise saves.  Returns the response together with the team store
after the call. -/
def teamsCreate (users : List User) (teams : List TeamDoc)
    (reqUser : List (String × String))
    (name : String) (description : Option String)
    (memberEmails : Option (List String)) :
    TeamsCreateRes × List TeamDoc :=
  if name == "" ∨ memberEmails == none then
    (.badRequest "Name and member emails are required", teams)
  else
    let emails := memberEmails.getD []
    let members := findUsersByEmails users emails
    if members.length ≠ emails.length then
      (.notFound "Some members not found", teams)
    else
      let team : TeamDoc :=
        { name := name, description := description,
          members := members.map (fun u => u.uid),
          createdBy := getProp reqUser "_id" }
      if falsyStr team.createdBy then
        (.badRequest "Created by cannot be blank", teams)
      else
        (.created team, teams ++ [team])

/-- Result of the `authorizeTeamEdit` middleware. -/
inductive AuthzRes where
  | notFound
  | forbidden
  | authorized
deriving Repr, DecidableEq

/-- `Team.findById` over the embedded store. -/
def findTeamById (teams : List StoredTeam) (id : String) : Option StoredTeam :=
  teams.find? (fun t => t.tid == id)

/-- `authorizeTeamEdit` (teamscontroller.js lines 80-110), run with
`req.user` set by the shared middleware: looks the team up first
(404 when absent), then compares `team.createdBy` with `req.user._id`
via `ObjectId.equals` (403 when the comparison fails), else `next()`. -/
def authorizeTeamEdit (teams : List StoredTeam)
    (reqUser : List (String × String)) (id : String) : AuthzRes :=
  match findTeamById teams id with
  | none => .notFound
  | some team =>
    if ¬ objectIdEquals team.createdBy (getProp reqUser "_id") then
      .forbidden
    else
      .authorized

/-- Modelled from the spec: `enums/taskstatus` is not under `src/`; the
spec (§3, §4.1) and the validator's own message fix the enum's values as
exactly `open` and `closed`, so `Object.values(TaskStatus)` is this
list. -/
def taskStatusValues : List String := ["open", "closed"]

/-- JavaScript `String.prototype.trim`: leading and trailing whitespace
removed (embedded over the character list so the kernel can evaluate
it). -/
def jsTrim (s : String) : String :=
  String.mk
    (((s.toList.dropWhile Char.isWhitespace).reverse.dropWhile
        Char.isWhitespace).reverse)

/-- Splitting a character list on the dash character. -/
def splitDashAux : List Char → List Char → List (List Char)
  | [], acc => [acc.reverse]
  | x :: xs, acc =>
    if x == Char.ofNat 45 then acc.reverse :: splitDashAux xs []
    else splitDashAux xs (x :: acc)

/-- JavaScript `s.split("-")`. -/
def jsSplitDash (s : String) : List String :=
  (splitDashAux s.toList []).map String.mk

/-- Value of an all-digit character list; `none` as soon as a non-digit
appears. -/
def digitsToNat (l : List Char) : Option Nat :=
  l.foldl
    (fun acc c =>
      acc.bind (fun n =>
        if c.isDigit then some (n * 10 + (c.toNat - 48)) else none))
    (some 0)

/-- Integer literal over a character list: optional leading minus sign,
then digits only. -/
def parseIntChars : List Char → Option Int
  | [] => none
  | c :: rest =>
    if c == Char.ofNat 45 then
      match rest with
      | [] => none
      | _ => (digitsToNat rest).map (fun n => -(n : Int))
    else (digitsToNat (c :: rest)).map (fun n => (n : Int))

/-- A proposed task payload (`req.body` of the task routes); each field
is absent (`none`, JavaScript `undefined`) or a string. -/
structure TaskPayload where
  title : Option String
  description : Option String
  status : Option String
  dueDate : Option String
deriving Repr, DecidableEq

/-- `isEmpty` (taskcontroller.js lines 727-736) restricted to the
string-or-undefined values the validator feeds it: `null`/`undefined`
are empty, and so is a string that trims to nothing. -/
def isEmptyStr : Option String → Bool
  | none => true
  | some s => jsTrim s == ""

/-- `Object.values(TaskStatus).includes(status)`: an absent status is
never a member. -/
def statusIncluded : Option String → Bool
  | none => false
  | some s => taskStatusValues.contains s

/-- JavaScript `Number(s)` restricted to the integer strings the date
checks feed it: whitespace-only input is `0`, an integer literal is its
value, anything else is `NaN` (`none`). -/
def jsNumber (s : String) : Option Int :=
  match (jsTrim s).toList with
  | [] => some 0
  | l => parseIntChars l

/-- The validator's verdict: `accept`, or the response sent by the first
failing check, one constructor per distinct 400 message. -/
inductive Verdict where
  | accept
  | titleMissing
  | titleLength
  | descriptionMissing
  | descriptionLength
  | statusInvalid
  | statusMissing
  | dueDateMissing
  | dueDateFormatWrong
  | dueDateComponentsWrong
deriving Repr, DecidableEq

/-- The due-date clause of `validateTask` (taskcontroller.js lines
78-96): split on dashes into exactly three parts, map `Number`, and
require non-NaN components with day in [1,31] and month in [1,12]. -/
def dueDateCheck (s : String) : Verdict :=
  if (jsSplitDash s).length ≠ 3 then .dueDateFormatWrong
  else
    match (jsSplitDash s).map jsNumber with
    | [some d, some m, some _y] =>
      if m < 1 ∨ 12 < m ∨ d < 1 ∨ 31 < d then .dueDateComponentsWrong
      else .accept
    | _ => .dueDateComponentsWrong

/-- `validateTask` (taskcontroller.js lines 34-99), with the checks in
the source's order: title emptiness, title length, description
emptiness, description length, status enum membership, status
emptiness, due-date emptiness, then the due-date shape check. -/
def validateTask (p : TaskPayload) : Verdict :=
  if isEmptyStr p.title then .titleMissing
  else if (p.title.getD "").length < 5 ∨ 100 < (p.title.getD "").length then
    .titleLength
  else if isEmptyStr p.description then .descriptionMissing
  else if 1000 < (p.description.getD "").length then .descriptionLength
  else if ¬ statusIncluded p.status then .statusInvalid
  else if isEmptyStr p.status then .statusMissing
  else if isEmptyStr p.dueDate then .dueDateMissing
  else if ¬ falsyStr p.dueDate then dueDateCheck (p.dueDate.getD "")
  else .accept

/-- The result of `new Date(year, month - 1, day)` in `parseDate`, kept
as its numeric components; a `none` component is `NaN` (an invalid
date). -/
structure JsDate where
  year : Option Int
  monthIndex : Option Int
  day : Option Int
deriving Repr, DecidableEq

/-- `parseDate` (taskcontroller.js lines 750-753): split on dashes, map
`Number`, build a date from day, zero-based month and year. -/
def parseDate (s : String) : JsDate :=
  let ns := (jsSplitDash s).map jsNumber
  { year := ns.getD 2 none,
    monthIndex := (ns.getD 1 none).map (fun m => m - 1),
    day := ns.getD 0 none }

/-- A stored Task document (`models/tasks`); comments are (author id,
text) pairs. -/
structure StoredTask where
  tid : String
  title : String
  description : String
  status : String
  dueDate : Option JsDate
  assignedTo : Option String
  comments : List (String × String)
deriving Repr, DecidableEq

/-- `Task.findById` over the embedded store. -/
def findTaskById (store : List StoredTask) (id : String) : Option StoredTask :=
  store.find? (fun t => t.tid == id)

/-- Persisting a modified document back (`doc.save()` on a fetched doc,
or `findByIdAndUpdate`): the entry with the given id is replaced. -/
def replaceTaskById (store : List StoredTask) (id : String)
    (t1 : StoredTask) : List StoredTask :=
  store.map (fun t => if t.tid == id then t1 else t)

/-- The `user` argument actually handed to `populateEmailForAssignee`:
either a bare ObjectId (the raw `assignedTo` value) or a full User
document. -/
inductive MailRecipient where
  | oid (s : String)
  | userDoc (u : User)
deriving Repr, DecidableEq

/-- JavaScript `user.email`: defined only on a User document; reading it
off a bare ObjectId yields `undefined`. -/
def recipientEmail : MailRecipient → Option String
  | .oid _ => none
  | .userDoc u => some u.email

/-- JavaScript `user.firstName`, `undefined` on a bare ObjectId. -/
def recipientFirstName : MailRecipient → Option String
  | .oid _ => none
  | .userDoc u => some u.firstName

/-- JavaScript `user.lastName`, `undefined` on a bare ObjectId. -/
def recipientLastName : MailRecipient → Option String
  | .oid _ => none
  | .userDoc u => some u.lastName

/-- A template literal renders `undefined` as the string! -/
def jsShow (o : Option String) : String := o.getD "undefined"

/-- Integer component of a date rendered into text; `NaN` prints as
such. -/
def showOptInt (o : Option Int) : String :=
  match o with
  | some n => toString n
  | none => "NaN"

/-- Model of `dueDate.toLocaleString("en-US", options)`: an opaque
locale rendering, embedded as any fixed injective rendering of the
date's components. -/
def toLocaleStringEnUS (d : JsDate) : String :=
  "Date(" ++ showOptInt d.year ++ "," ++ showOptInt d.monthIndex ++ ","
    ++ showOptInt d.day ++ ")"

/-- The nodemailer options object built by the dispatch layer. -/
structure MailOptions where
  fromAddr : Option String
  toAddr : Option String
  subject : String
  textBody : String
  htmlBody : String
deriving Repr, DecidableEq

/-- `populateEmailForAssignee` (taskcontroller.js lines 773-815): reads
`task.dueDate.toLocaleString(...)` unconditionally — a `null` due date
throws (modelled as `none`) — then builds the mail options with
`to: user.email` and bodies naming `user.firstName`, `user.lastName`
and the task title; the `assigned` bodies also carry the formatted due
date.  `envFrom` is `process.env.EMAIL_USER`. -/
def populateEmailForAssignee (envFrom : Option String) (task : StoredTask)
    (user : MailRecipient) (isUpdate : Bool) : Option MailOptions :=
  match task.dueDate with
  | none => none
  | some d =>
    let formattedDateTime := toLocaleStringEnUS d
    let hello := "Hello " ++ jsShow (recipientFirstName user) ++ " "
      ++ jsShow (recipientLastName user)
    some
      { fromAddr := envFrom,
        toAddr := recipientEmail user,
        subject :=
          if isUpdate then "Task Update Notification"
          else "Task Assignment Notification",
        textBody :=
          if isUpdate then
            hello ++ ", Your task titled \"" ++ task.title
              ++ "\" has been updated. Please review the latest changes to ensure you are up-to-date."
          else
            hello ++ ", You have been assigned a new task titled \""
              ++ task.title ++ "\". Please complete it by "
              ++ formattedDateTime ++ ".",
        htmlBody :=
          if isUpdate then
            "<p>" ++ hello ++ ",</p><p>Your task titled <strong>"
              ++ task.title
              ++ "</strong> has been updated.</p><p>Please review the latest changes to ensure you are up-to-date.</p>"
          else
            "<p>" ++ hello
              ++ ",</p><p>You have been assigned a new task.</p><p>Task Title: <strong>"
              ++ task.title ++ "</strong>.</p><p>Please complete it by "
              ++ formattedDateTime ++ ".</p>" }

/-- `sendEmail` (emailservice.js lines 21-41): hands the options to the
transport collaborator inside a try/catch whose catch clause only logs,
so the function completes normally whatever the collaborator does. -/
def sendEmail (transport : MailOptions → Except String Unit)
    (m : MailOptions) : Except String Unit :=
  match transport m with
  | .ok _ => .ok ()
  | .error _ => .ok ()

/-- Evaluation of the dead fallback `payloadField || task.field` in the
update handler: when the payload field is truthy its value is taken;
otherwise JavaScript evaluates `task.field`, and `task` is an undefined
variable there (the fetched document is named `taskfromDB`), so a
ReferenceError is thrown. -/
def jsOrTaskVar (v : Option String) : Except String String :=
  match v with
  | some s =>
    if s == "" then .error "ReferenceError: task is not defined"
    else .ok s
  | none => .error "ReferenceError: task is not defined"

/-- The same fallback for `parsedDueDate || task.dueDate`: a Date object
is always truthy, so a parsed date is taken; a `null` parsed date makes
JavaScript evaluate the undefined variable `task`. -/
def jsOrTaskVarDate (v : Option JsDate) : Except String JsDate :=
  match v with
  | some d => .ok d
  | none => .error "ReferenceError: task is not defined"

/-- Result of `taskController.put /tasks/:id`. -/
inductive PutRes where
  | validationFailed (v : Verdict)
  | notFound
  | internalErr
  | updated (t : StoredTask)
deriving Repr, DecidableEq

/-- `taskController.put /tasks/:id` (taskcontroller.js lines 468-510)
behind the `validateTask` middleware: on a validation failure the 400
response is sent before the handler runs; otherwise the task is
fetched (404 when absent), its four fields are overwritten through the
`payloadField || task.field` expressions, the document is saved, and —
when the saved task carries an assignee — one mail is built from the
raw `updatedTask.assignedTo` value and handed to `sendEmail`.  Returns
the response, the store after the call, and the mail payloads handed to
the dispatch layer. -/
def putTaskCore (envFrom : Option String) (store : List StoredTask)
    (id : String) (p : TaskPayload) :
    PutRes × List StoredTask × List MailOptions :=
  let v := validateTask p
  if v ≠ Verdict.accept then (.validationFailed v, store, [])
  else
    let parsedDueDate :=
      if ¬ falsyStr p.dueDate then some (parseDate (p.dueDate.getD ""))
      else none
    match findTaskById store id with
    | none => (.notFound, store, [])
    | some t0 =>
      match jsOrTaskVar p.title, jsOrTaskVar p.description,
          jsOrTaskVar p.status, jsOrTaskVarDate parsedDueDate with
      | .ok ti, .ok de, .ok st, .ok du =>
        let t1 : StoredTask :=
          { t0 with title := ti, description := de, status := st,
                    dueDate := some du }
        let store1 := replaceTaskById store id t1
        match t1.assignedTo with
        | some uid =>
          match populateEmailForAssignee envFrom t1 (.oid uid) true with
          | some m => (.updated t1, store1, [m])
          | none => (.internalErr, store1, [])
        | none => (.updated t1, store1, [])
      | _, _, _, _ => (.internalErr, store, [])

/-- Result of `taskController.put /tasks/:id/assign`. -/
inductive AssignRes where
  | userNotFound
  | taskNotFound
  | internalErr
  | assigned (t : StoredTask)
deriving Repr, DecidableEq

/-- `User.findById` over the embedded store. -/
def findUserById (users : List User) (id : String) : Option User :=
  users.find? (fun u => u.uid == id)

/-- `taskController.put /tasks/:id/assign` (taskcontroller.js lines
582-617) behind `userExists` and `taskExists`: 400 when `assignedTo`
resolves to no user, 404 when the task is absent; otherwise
`findByIdAndUpdate` sets the assignee, a mail is built for the resolved
user document (`req.user`, which `userExists` set to the assignee) and
handed to `sendEmail`.  Returns the response, the store after the call,
and the mail payloads handed to the dispatch layer. -/
def assignTaskCore (envFrom : Option String) (users : List User)
    (store : List StoredTask) (id : String) (assignedTo : String) :
    AssignRes × List StoredTask × List MailOptions :=
  match findUserById users assignedTo with
  | none => (.userNotFound, store, [])
  | some user =>
    match findTaskById store id with
    | none => (.taskNotFound, store, [])
    | some t0 =>
      let t1 : StoredTask := { t0 with assignedTo := some assignedTo }
      let store1 := replaceTaskById store id t1
      match populateEmailForAssignee envFrom t1 (.userDoc user) false with
      | some m => (.assigned t1, store1, [m])
      | none => (.internalErr, store1, [])

/-- The update route as observed by the caller when the mail transport
is `transport`: each mail payload goes through `sendEmail`; were any
dispatch to raise, the route's catch clause would turn the response
into a 500. -/
def putTaskObserved (transport : MailOptions → Except String Unit)
    (envFrom : Option String) (store : List StoredTask) (id : String)
    (p : TaskPayload) : PutRes × List StoredTask :=
  let r := putTaskCore envFrom store id p
  if (r.2.2.map (sendEmail transport)).any
      (fun e => match e with | .error _ => true | .ok _ => false) then
    (.internalErr, r.2.1)
  else (r.1, r.2.1)

/-- The assign route as observed by the caller when the mail transport
is `transport`. -/
def assignTaskObserved (transport : MailOptions → Except String Unit)
    (envFrom : Option String) (users : List User)
    (store : List StoredTask) (id : String) (assignedTo : String) :
    AssignRes × List StoredTask :=
  let r := assignTaskCore envFrom users store id assignedTo
  if (r.2.2.map (sendEmail transport)).any
      (fun e => match e with | .error _ => true | .ok _ => false) then
    (.internalErr, r.2.1)
  else (r.1, r.2.1)

/-- A hexadecimal digit. -/
def isHexChar (c : Char) : Bool :=
  c.isDigit || (('a' ≤ c) && (c ≤ 'f')) || (('A' ≤ c) && (c ≤ 'F'))

/-- `mongoose.Types.ObjectId.isValid` on a string: a 24-character hex
string, or any 12-character string. -/
def isValidObjectId (s : String) : Bool :=
  (s.length == 24 && s.toList.all isHexChar) || s.length == 12

/-- Result of `taskController.patch /tasks/:id/complete`. -/
inductive CompleteRes where
  | badRequest (msg : String)
  | notFound (msg : String)
  | ok (t : StoredTask)
deriving Repr, DecidableEq

/-- `taskController.patch /tasks/:id/complete` (taskcontroller.js lines
640-666): 400 on a malformed id, otherwise `findByIdAndUpdate` sets the
status to closed (404 when the task is absent) and the updated document
is returned.  `runValidators` is satisfied since `closed` is a legal
enum value.  Returns the response with the store after the call. -/
def completeTask (store : List StoredTask) (id : String) :
    CompleteRes × List StoredTask :=
  if ¬ isValidObjectId id then (.badRequest "Invalid task ID", store)
  else
    match findTaskById store id with
    | none => (.notFound "Task not found", store)
    | some t =>
      let t1 : StoredTask := { t with status := "closed" }
      (.ok t1, replaceTaskById store id t1)

/-- Result of `taskController.get /tasks`. -/
inductive ListTasksRes where
  | badRequest (msg : String)
  | notFound (msg : String)
  | ok (ts : List StoredTask)
deriving Repr, DecidableEq

/-- The first `taskController.get /tasks` route (taskcontroller.js
lines 175-203), the one Express registers: a truthy status outside the
enum is rejected with 400 before `Task.find` runs; `query.status` is
set only for a truthy status; an empty result set is a 404.  The second
component records the query sent to the store: `none` when `Task.find`
never ran, otherwise the optional status constraint it carried. -/
def getTasks (store : List StoredTask) (statusQ : Option String) :
    ListTasksRes × Option (Option String) :=
  if !(falsyStr statusQ)
      && !(taskStatusValues.contains (statusQ.getD "")) then
    (.badRequest "Invalid task status", none)
  else
    let query : Option String := if falsyStr statusQ then none else statusQ
    let tasks :=
      match query with
      | some s => store.filter (fun t => t.status == s)
      | none => store
    ((if tasks.length == 0 then .notFound "No tasks found" else .ok tasks),
     some query)

/-- A store-level failure as surfaced to a controller catch clause:
mongo error code and message. -/
structure StoreErr where
  code : Nat
  errmsg : String
deriving Repr, DecidableEq

/-- `newTask.save()` under the unique index on `title`: inserting a
title already present fails with the duplicate-key error, code 11000. -/
def saveNewTask (store : List StoredTask) (t : StoredTask) :
    Except StoreErr (List StoredTask) :=
  if store.any (fun t0 => t0.title == t.title) then
    .error { code := 11000, errmsg := "E11000 duplicate key error" }
  else
    .ok (store ++ [t])

/-- Result of `taskController.post /tasks`.  The catch clause of this
route has no duplicate-key branch: every store error is answered with
the one generic 500 (`internalErr`) carrying `err.errmsg`. -/
inductive CreateTaskRes where
  | validationFailed (v : Verdict)
  | internalErr (errmsg : String)
  | created (t : StoredTask)
deriving Repr, DecidableEq

/-- `taskController.post /tasks` (taskcontroller.js lines 420-438)
behind `validateTask`: parses the due date, builds the new document
(fresh id supplied by the store layer) and saves it; any error reaching
the catch clause — the duplicate-key error included — becomes the
generic 500 response.  Returns the response with the store after the
call. -/
def postTasks (store : List StoredTask) (freshId : String)
    (p : TaskPayload) : CreateTaskRes × List StoredTask :=
  let v := validateTask p
  if v ≠ Verdict.accept then (.validationFailed v, store)
  else
    let parsedDueDate :=
      if ¬ falsyStr p.dueDate then some (parseDate (p.dueDate.getD ""))
      else none
    let newTask : StoredTask :=
      { tid := freshId, title := p.title.getD "",
        description := p.description.getD "",
        status := p.status.getD "", dueDate := parsedDueDate,
        assignedTo := none, comments := [] }
    match saveNewTask store newTask with
    | .ok store1 => (.created newTask, store1)
    | .error e => (.internalErr e.errmsg, store)

/-! Concrete documents used by counterexamples and witnesses. -/

/-- A registered user. -/
def userA : User :=
  { uid := "64a000000000000000000001", firstName := "John",
    lastName := "Doe", email := "john@example.com" }

/-- A second registered user, the assignee in the update scenario. -/
def userB : User :=
  { uid := "64a000000000000000000002", firstName := "Jane",
    lastName := "Roe", email := "jane@example.com" }

/-- A stored team owned by `userA`. -/
def teamA : StoredTeam :=
  { tid := "64b000000000000000000001", name := "alpha",
    description := none, members := [], createdBy := userA.uid }

/-- A stored open task with no assignee. -/
def task1 : StoredTask :=
  { tid := "64c0000000000000000000aa", title := "Test Task",
    description := "This is a test task", status := "open",
    dueDate := some { year := some 2025, monthIndex := some 0, day := some 1 },
    assignedTo := none, comments := [] }

/-- A stored open task assigned to `userB`. -/
def task2 : StoredTask :=
  { tid := "64c0000000000000000000bb", title := "Test Task Two",
    description := "This is another test task", status := "open",
    dueDate := some { year := some 2025, monthIndex := some 0, day := some 1 },
    assignedTo := some userB.uid, comments := [] }

/-- The stored task produced by the full-payload update of `task2` in
the C5 scenario. -/
def updatedTask2 : StoredTask :=
  { tid := "64c0000000000000000000bb", title := "Test Task Two",
    description := "This is a test task", status := "closed",
    dueDate := some { year := some 2025, monthIndex := some 0, day := some 1 },
    assignedTo := some userB.uid, comments := [] }

/-- A stored task whose title the C9 scenario duplicates. -/
def taskDup : StoredTask :=
  { tid := "64c0000000000000000000cc", title := "Valid Task1",
    description := "Some stored description", status := "open",
    dueDate := none, assignedTo := none, comments := [] }

/-- The duplicate-title payload of the C9 scenario; it passes
validation. -/
def pDup : TaskPayload :=
  { title := some "Valid Task1", description := some "A description",
    status := some "open", dueDate := some "01-01-2025" }

/-! Helper lemmas. -/

/-- A non-empty check on an optional string yields the string and its
non-emptiness. -/
theorem isEmptyStr_eq_false (o : Option String)
    (h : isEmptyStr o = false) : ∃ s, o = some s ∧ s ≠ "" := by
  cases o with
  | none => simp [isEmptyStr] at h
  | some s =>
    refine ⟨s, rfl, ?_⟩
    intro hs
    subst hs
    exact absurd h (by decide)

/-- A status accepted by the enum membership test is a concrete
non-empty enum value. -/
theorem statusIncluded_eq_true (o : Option String)
    (h : statusIncluded o = true) :
    ∃ s, o = some s ∧ s ≠ "" ∧ taskStatusValues.contains s = true := by
  cases o with
  | none => simp [statusIncluded] at h
  | some s =>
    refine ⟨s, rfl, ?_, h⟩
    intro hs
    subst hs
    exact absurd h (by decide)

/-- A falsy string value is empty in the validator's sense. -/
theorem isEmptyStr_of_falsy (o : Option String)
    (h : falsyStr o = true) : isEmptyStr o = true := by
  cases o with
  | none => rfl
  | some s =>
    simp only [falsyStr, beq_iff_eq] at h
    subst h
    decide

/-- An empty status never passes the enum membership test. -/
theorem statusIncluded_of_empty (o : Option String)
    (h : isEmptyStr o = true) : statusIncluded o = false := by
  cases o with
  | none => rfl
  | some s =>
    cases hb : statusIncluded (some s) with
    | false => rfl
    | true =>
      exfalso
      obtain ⟨t, ht, _, hmem⟩ := statusIncluded_eq_true (some s) hb
      obtain rfl : t = s := by injection ht with ht2; exact ht2.symm
      have hts : t = "open" ∨ t = "closed" := by
        have : t ∈ taskStatusValues := List.elem_iff.mp hmem
        simpa [taskStatusValues] using this
      simp only [isEmptyStr, beq_iff_eq] at h
      rcases hts with rfl | rfl
      · exact absurd h (by decide)
      · exact absurd h (by decide)

/-- The source's validator: a verdict of `accept` pins down the shape of
every field the update handler later reads. -/
theorem validateTask_accept (p : TaskPayload)
    (h : validateTask p = .accept) :
    isEmptyStr p.title = false ∧ isEmptyStr p.description = false ∧
    statusIncluded p.status = true ∧ isEmptyStr p.dueDate = false := by
  unfold validateTask at h
  split_ifs at h with h1 h2 h3 h4 h5 h6 h7 h8
  all_goals
    first
      | exact Verdict.noConfusion h
      | exact ⟨by simpa using h1, by simpa using h3,
          by simpa using h5, by simpa using h7⟩

/-! Claim theorems. -/

/-- C1: the spec's gate is `CanEdit(identity, team)` true iff
`team.createdBy == identity.id`, so the owner must pass.  The code
compares `team.createdBy` with `req.user._id`, but the login token
carries the caller's id under the key `id`, so `req.user._id` is
`undefined` and even the team's owner is rejected with Forbidden. -/
theorem claim1_owner_rejected_despite_ownership :
    authorizeTeamEdit [teamA] (decodedToken userA) teamA.tid
      = AuthzRes.forbidden ∧
    teamA.createdBy = userA.uid ∧
    getProp (decodedToken userA) "id" = some userA.uid ∧
    getProp (decodedToken userA) "_id" = none := by
  refine ⟨by decide, rfl, by decide, by decide⟩

/-- C2: the spec says a valid Team.Create persists a team with
`createdBy = identity.id`.  The code sets `createdBy: req.user._id`,
which is `undefined` under the login token (the id lives under `id`),
so every authenticated create is rejected with the blank-`createdBy`
400 and nothing is persisted. -/
theorem claim2_create_rejected_blank_createdBy :
    teamsCreate [userA] [] (decodedToken userA) "devteam" none
        (some ["john@example.com"])
      = (TeamsCreateRes.badRequest "Created by cannot be blank", []) ∧
    getProp (decodedToken userA) "id" = some userA.uid := by
  refine ⟨by decide, by decide⟩

/-- C3 counterexample: an Update carrying only `status: "closed"` does
not succeed — the `validateTask` middleware rejects it with the
title-missing 400 before the handler runs, leaving the store
unchanged. -/
theorem claim3_counterexample_status_only_update_rejected :
    putTaskCore none [task1] task1.tid
        { title := none, description := none, status := some "closed",
          dueDate := none }
      = (PutRes.validationFailed Verdict.titleMissing, [task1], []) := by
  decide

/-- C4 counterexample: with a valid title and description and an empty
status, the validator answers status-invalid (the enum membership check
at taskcontroller.js line 61 runs before the emptiness check at line
69), not status-missing as the claimed rule order requires. -/
theorem claim4_counterexample_empty_status_is_invalid :
    validateTask
        { title := some "Valid title", description := some "A fine description",
          status := some "", dueDate := some "01-01-2025" }
      = Verdict.statusInvalid ∧
    validateTask
        { title := some "Valid title", description := some "A fine description",
          status := some "", dueDate := some "01-01-2025" }
      ≠ Verdict.statusMissing := by
  refine ⟨by decide, by decide⟩

/-- C5: on a successful update of a task assigned to `userB`, exactly
one "updated" mail payload is handed to the dispatch layer, but its
recipient is `undefined`: the handler passes the raw
`updatedTask.assignedTo` ObjectId as the user, whose `.email` property
does not exist — the assignee's real address `jane@example.com` is
never used. -/
theorem claim5_update_mail_recipient_undefined :
    ((putTaskCore (some "app@tracker.example") [task2] task2.tid
        { title := some "Test Task Two", description := some "This is a test task",
          status := some "closed", dueDate := some "01-01-2025" }).2.2).map
        MailOptions.toAddr = [none] ∧
    ((putTaskCore (some "app@tracker.example") [task2] task2.tid
        { title := some "Test Task Two", description := some "This is a test task",
          status := some "closed", dueDate := some "01-01-2025" }).2.2).map
        MailOptions.subject = ["Task Update Notification"] ∧
    (putTaskCore (some "app@tracker.example") [task2] task2.tid
        { title := some "Test Task Two", description := some "This is a test task",
          status := some "closed", dueDate := some "01-01-2025" }).1
      = PutRes.updated updatedTask2 ∧
    userB.email = "jane@example.com" := by
  refine ⟨by decide, by decide, by decide, rfl⟩

/-- Replacing the found entry keeps it findable: after a
`replaceTaskById` of an id that was present, `findTaskById` returns the
replacement. -/
theorem findTaskById_replace (store : List StoredTask) (id : String)
    (t1 : StoredTask) (ht : t1.tid = id) (t : StoredTask)
    (h : findTaskById store id = some t) :
    findTaskById (replaceTaskById store id t1) id = some t1 := by
  induction store with
  | nil => simp [findTaskById] at h
  | cons hd tl ih =>
    by_cases hhd : (hd.tid == id) = true
    · simp only [replaceTaskById, List.map_cons, hhd, if_true, findTaskById]
      exact List.find?_cons_of_pos _ (by simp [ht])
    · have hhd2 : (hd.tid == id) = false := by simpa using hhd
      have h2 : findTaskById tl id = some t := by
        unfold findTaskById at h
        rwa [List.find?_cons_of_neg _ (by simp [hhd2])] at h
      simp only [replaceTaskById, List.map_cons, hhd2, Bool.false_eq_true,
        if_false, findTaskById]
      rw [List.find?_cons_of_neg _ (by simp [hhd2])]
      exact ih h2

/-- C6: Complete rejects a malformed id with the 400, answers 404 for a
well-formed id of no stored task, and otherwise sets the status to
closed unconditionally; running Complete again on the resulting store
succeeds again with status closed — the operation is idempotent. -/
theorem claim6_complete_idempotent (store : List StoredTask) (id : String) :
    (isValidObjectId id = false →
      completeTask store id = (.badRequest "Invalid task ID", store)) ∧
    (isValidObjectId id = true → findTaskById store id = none →
      completeTask store id = (.notFound "Task not found", store)) ∧
    (∀ t, isValidObjectId id = true → findTaskById store id = some t →
      ∃ t1 store1, completeTask store id = (.ok t1, store1) ∧
        t1.status = "closed" ∧
        ∃ t2 store2, completeTask store1 id = (.ok t2, store2) ∧
          t2.status = "closed") := by
  refine ⟨?_, ?_, ?_⟩
  · intro h
    simp [completeTask, h]
  · intro h hnone
    simp [completeTask, h, hnone]
  · intro t hid hfind
    have htid : t.tid = id := by
      have := List.find?_some hfind
      simpa using this
    have hstep1 : completeTask store id
        = (.ok { t with status := "closed" },
           replaceTaskById store id { t with status := "closed" }) := by
      simp [completeTask, hid, hfind]
    have hfind2 : findTaskById
        (replaceTaskById store id { t with status := "closed" }) id
          = some { t with status := "closed" } :=
      findTaskById_replace store id { t with status := "closed" } htid t hfind
    have hstep2 : completeTask
        (replaceTaskById store id { t with status := "closed" }) id
        = (.ok { t with status := "closed" },
           replaceTaskById
             (replaceTaskById store id { t with status := "closed" }) id
             { t with status := "closed" }) := by
      simp [completeTask, hid, hfind2]
    exact ⟨{ t with status := "closed" },
      replaceTaskById store id { t with status := "closed" }, hstep1, rfl,
      { t with status := "closed" },
      replaceTaskById
        (replaceTaskById store id { t with status := "closed" }) id
        { t with status := "closed" }, hstep2, rfl⟩

/-- C6 witness: a malformed id answers 400 on a concrete store, and the
closed-status idempotence holds concretely on `task1`. -/
theorem claim6_complete_idempotent_witness :
    completeTask ([] : List StoredTask) "zz"
      = (.badRequest "Invalid task ID", []) ∧
    (∃ t1 store1, completeTask [task1] task1.tid = (.ok t1, store1) ∧
      t1.status = "closed" ∧
      ∃ t2 store2, completeTask store1 task1.tid = (.ok t2, store2) ∧
        t2.status = "closed") :=
  ⟨(claim6_complete_idempotent [] "zz").1 (by decide),
   (claim6_complete_idempotent [task1] task1.tid).2.2 task1 (by decide)
     (by decide)⟩

/-- No batch of dispatches ever reports a failure: `sendEmail` absorbs
whatever the transport does. -/
theorem dispatches_never_fail (transport : MailOptions → Except String Unit)
    (l : List MailOptions) :
    (l.map (sendEmail transport)).any
        (fun e => match e with | .error _ => true | .ok _ => false)
      = false := by
  induction l with
  | nil => rfl
  | cons m tl ih =>
    simp only [List.map_cons, List.any_cons, ih, Bool.or_false]
    unfold sendEmail
    cases transport m <;> rfl

/-- C7: for every transport collaborator — failing however it likes —
the dispatch layer's try/catch absorbs the failure (`sendEmail` always
completes normally), and the caller-visible response and resulting
store of the update and assign routes are exactly those of the
dispatch-free core: a collaborator failure never changes the caller's
result. -/
theorem claim7_notification_failures_absorbed
    (transport : MailOptions → Except String Unit) :
    (∀ m, sendEmail transport m = .ok ()) ∧
    (∀ envFrom store id p,
      putTaskObserved transport envFrom store id p
        = ((putTaskCore envFrom store id p).1,
           (putTaskCore envFrom store id p).2.1)) ∧
    (∀ envFrom users store id assignedTo,
      assignTaskObserved transport envFrom users store id assignedTo
        = ((assignTaskCore envFrom users store id assignedTo).1,
           (assignTaskCore envFrom users store id assignedTo).2.1)) := by
  refine ⟨?_, ?_, ?_⟩
  · intro m
    unfold sendEmail
    cases transport m <;> rfl
  · intro envFrom store id p
    simp [putTaskObserved, dispatches_never_fail]
  · intro envFrom users store id assignedTo
    simp [assignTaskObserved, dispatches_never_fail]

/-- Counting argument behind the member-resolution guard: with unique
stored emails, an input list containing an email no user carries always
resolves to strictly fewer users than it has entries. -/
theorem findUsersByEmails_length_lt (users : List User) (es : List String)
    (e : String) (he : e ∈ es) (hmiss : ∀ u ∈ users, u.email ≠ e)
    (hnodup : (users.map User.email).Nodup) :
    (findUsersByEmails users es).length < es.length := by
  classical
  have hsub : List.Sublist ((findUsersByEmails users es).map User.email)
      (users.map User.email) :=
    (List.filter_sublist users).map User.email
  have hnd : ((findUsersByEmails users es).map User.email).Nodup :=
    hnodup.sublist hsub
  have hmem2 : ∀ x ∈ (findUsersByEmails users es).map User.email,
      x ∈ es ∧ x ≠ e := by
    intro x hx
    obtain ⟨u, hu, rfl⟩ := List.mem_map.mp hx
    have hu2 := List.mem_filter.mp hu
    refine ⟨?_, hmiss u hu2.1⟩
    have := hu2.2
    simpa [List.elem_iff] using this
  have hcard1 : ((findUsersByEmails users es).map User.email).toFinset.card
      = (findUsersByEmails users es).length := by
    rw [List.toFinset_card_of_nodup hnd, List.length_map]
  have hsubset : ((findUsersByEmails users es).map User.email).toFinset
      ⊆ es.toFinset.erase e := by
    intro x hx
    rw [List.mem_toFinset] at hx
    obtain ⟨hxe, hxne⟩ := hmem2 x hx
    exact Finset.mem_erase.mpr ⟨hxne, List.mem_toFinset.mpr hxe⟩
  have h1 : ((findUsersByEmails users es).map User.email).toFinset.card
      ≤ (es.toFinset.erase e).card := Finset.card_le_card hsubset
  have h2 : (es.toFinset.erase e).card = es.toFinset.card - 1 :=
    Finset.card_erase_of_mem (List.mem_toFinset.mpr he)
  have h3 : es.toFinset.card ≤ es.length := es.toFinset_card_le
  have h4 : 1 ≤ es.toFinset.card :=
    Finset.card_pos.mpr ⟨e, List.mem_toFinset.mpr he⟩
  omega

/-- C8: a Team.Create call whose member emails include one that
resolves to no stored user (stored emails being unique, as the schema
enforces) is answered with the 404 "Some members not found", and the
team store is returned unchanged — nothing is persisted. -/
theorem claim8_create_missing_member_not_found (users : List User)
    (teams : List TeamDoc) (reqUser : List (String × String))
    (name : String) (description : Option String) (es : List String)
    (e : String) (hname : name ≠ "") (he : e ∈ es)
    (hmiss : ∀ u ∈ users, u.email ≠ e)
    (hnodup : (users.map User.email).Nodup) :
    teamsCreate users teams reqUser name description (some es)
      = (.notFound "Some members not found", teams) := by
  have hlt := findUsersByEmails_length_lt users es e he hmiss hnodup
  unfold teamsCreate
  rw [if_neg (by simp [hname])]
  simp only [Option.getD_some]
  rw [if_pos (Nat.ne_of_lt hlt)]

/-- C8 witness: concretely, creating a team for an unregistered email
fails with the 404 and leaves the (empty) team store empty. -/
theorem claim8_create_missing_member_not_found_witness :
    teamsCreate [userA] [] (decodedToken userA) "devteam" none
        (some ["ghost@example.com"])
      = (.notFound "Some members not found", []) :=
  claim8_create_missing_member_not_found [userA] [] (decodedToken userA)
    "devteam" none ["ghost@example.com"] "ghost@example.com" (by decide)
    (by decide) (by decide) (by decide)

/-- C9 counterexample: a validated Task.Create whose title is already
stored is answered by the route's generic catch clause — the same
Internal 500 (carrying the store's errmsg) used for every store
failure — not by any distinct DuplicateKey response: the task route,
unlike the team routes, has no `err.code === 11000` branch. -/
theorem claim9_counterexample_duplicate_title_is_internal :
    postTasks [taskDup] "64c0000000000000000000dd" pDup
      = (.internalErr "E11000 duplicate key error", [taskDup]) := by
  decide

/-- C9 amended: every validated Task.Create whose title equals a stored
task's title is answered with the generic Internal 500 response
carrying the duplicate-key errmsg, and the store is unchanged. -/
theorem claim9_amended_duplicate_title_surfaces_as_internal
    (store : List StoredTask) (freshId : String) (p : TaskPayload)
    (hv : validateTask p = .accept) (t : StoredTask) (ht : t ∈ store)
    (htitle : t.title = p.title.getD "") :
    postTasks store freshId p
      = (.internalErr "E11000 duplicate key error", store) := by
  unfold postTasks
  rw [if_neg (by simp [hv])]
  have hany : store.any (fun t0 => t0.title == p.title.getD "") = true :=
    List.any_eq_true.mpr ⟨t, ht, by simp [htitle]⟩
  simp [saveNewTask, hany]

/-- C9 amended witness: the amended statement instantiated on the
concrete duplicate scenario. -/
theorem claim9_amended_witness :
    postTasks [taskDup] "64c0000000000000000000ee" pDup
      = (.internalErr "E11000 duplicate key error", [taskDup]) :=
  claim9_amended_duplicate_title_surfaces_as_internal [taskDup]
    "64c0000000000000000000ee" pDup (by decide) taskDup (by decide)
    (by decide)

/-- A false membership test is the absence of the member. -/
theorem contains_eq_false_iff (l : List String) (a : String) :
    l.contains a = false ↔ a ∉ l := by
  rw [← Bool.not_eq_true]
  exact not_congr List.elem_iff

/-- C10 counterexample: a List call carrying the status filter `""` —
which is not one of {open, closed} — is not rejected: the empty string
is falsy, so the validation clause is skipped and `Task.find` runs
(here with no status constraint, over the empty store, giving the
404). -/
theorem claim10_counterexample_empty_filter_reaches_store :
    getTasks [] (some "") = (.notFound "No tasks found", some none) ∧
    taskStatusValues.contains "" = false := by
  refine ⟨by decide, by decide⟩

/-- C10 amended: a NON-EMPTY status filter outside {open, closed} is
rejected with the 400 before any store query (the query component is
`none`), an absent or empty filter is treated as no filter, and any
status constraint that does reach the store is one of the two enum
values. -/
theorem claim10_amended_nonempty_invalid_filter_rejected
    (store : List StoredTask) (s : String) (statusQ : Option String) :
    (s ≠ "" → taskStatusValues.contains s = false →
      getTasks store (some s) = (.badRequest "Invalid task status", none)) ∧
    (∀ q, (getTasks store statusQ).2 = some (some q) →
      taskStatusValues.contains q = true) := by
  constructor
  · intro hs hc
    have hfal : falsyStr (some s) = false := by simp [falsyStr, hs]
    have hmem : s ∉ taskStatusValues := (contains_eq_false_iff _ _).mp hc
    simp [getTasks, hfal, hmem]
  · intro q hq
    unfold getTasks at hq
    by_cases hcond : (!(falsyStr statusQ)
        && !(taskStatusValues.contains (statusQ.getD ""))) = true
    · rw [if_pos hcond] at hq
      simp at hq
    · rw [if_neg hcond] at hq
      by_cases hf : falsyStr statusQ = true
      · simp [hf] at hq
      · have hf2 : falsyStr statusQ = false := by simpa using hf
        have hcontains :
            taskStatusValues.contains (statusQ.getD "") = true := by
          cases hx : taskStatusValues.contains (statusQ.getD "")
          · have hmem := (contains_eq_false_iff _ _).mp hx
            exact absurd (by simp [hf2, hmem]) hcond
          · rfl
        have hqq : statusQ = some q := by
          simpa [hf2] using hq
        rw [hqq] at hcontains
        simpa using hcontains

/-- C10 amended witness: the filter "pending" is rejected with no store
query on a concrete store, and the concrete constraint that reaches the
store for the filter "open" is an enum value. -/
theorem claim10_amended_witness :
    getTasks [task1] "pending"
      = (.badRequest "Invalid task status", none) ∧
    taskStatusValues.contains "open" = true :=
  ⟨(claim10_amended_nonempty_invalid_filter_rejected [task1] "pending"
      (some "open")).1 (by decide) (by decide),
   (claim10_amended_nonempty_invalid_filter_rejected [task1] "pending"
      (some "open")).2 "open" (by decide)⟩

/-- C3 amended: Update never merges — it validates first, so any
payload with an empty or absent title/description/status/due date is
rejected with the first-failing-rule 400, the store and the dispatch
layer untouched (the stored title is not blanked, but the call also
does not succeed); and a payload that passes validation carries all
four fields non-empty, each of which replaces the stored field. -/
theorem claim3_amended_update_validates_first (envFrom : Option String)
    (store : List StoredTask) (id : String) (p : TaskPayload) :
    (validateTask p ≠ Verdict.accept →
      putTaskCore envFrom store id p
        = (.validationFailed (validateTask p), store, [])) ∧
    (validateTask p = Verdict.accept →
      ∀ t0, findTaskById store id = some t0 →
      (putTaskCore envFrom store id p).1
        = .updated { t0 with
            title := p.title.getD "",
            description := p.description.getD "",
            status := p.status.getD "",
            dueDate := some (parseDate (p.dueDate.getD "")) }) := by
  constructor
  · intro hv
    simp [putTaskCore, hv]
  · intro hv t0 hfind
    obtain ⟨hT, hD, hS, hDD⟩ := validateTask_accept p hv
    obtain ⟨ti, hti, htine⟩ := isEmptyStr_eq_false p.title hT
    obtain ⟨de, hde, hdene⟩ := isEmptyStr_eq_false p.description hD
    obtain ⟨st, hst, hstne, _⟩ := statusIncluded_eq_true p.status hS
    obtain ⟨dd, hdd, hddne⟩ := isEmptyStr_eq_false p.dueDate hDD
    have hfalsy : falsyStr p.dueDate = false := by
      rw [hdd]
      simp [falsyStr, hddne]
    simp only [putTaskCore, hv, ne_eq, not_true_eq_false, if_false,
      hfalsy, Bool.false_eq_true, not_false_eq_true, if_true, hfind,
      hti, hde, hst, hdd, jsOrTaskVar, jsOrTaskVarDate, Option.getD_some]
    rw [if_neg (by simpa using htine), if_neg (by simpa using hdene),
      if_neg (by simpa using hstne)]
    have hfd : falsyStr (some dd) = false := by simp [falsyStr, hddne]
    cases hass : t0.assignedTo with
    | none => simp [hass, hfd]
    | some uid => simp [hass, hfd, populateEmailForAssignee]

/-- C3 amended witness: a full valid payload overwrites every field of
the stored `task1` concretely. -/
theorem claim3_amended_witness :
    (putTaskCore none [task1] task1.tid
        { title := some "Fresh Title", description := some "Fresh description",
          status := some "open", dueDate := some "02-03-2026" }).1
      = PutRes.updated
          { task1 with
              title := "Fresh Title",
              description := "Fresh description",
              status := "open",
              dueDate := some { year := some 2026, monthIndex := some 2,
                                day := some 2 } } := by
  have h := (claim3_amended_update_validates_first none [task1] task1.tid
    { title := some "Fresh Title", description := some "Fresh description",
      status := some "open", dueDate := some "02-03-2026" }).2
    (by decide) task1 (by decide)
  simpa using h

/-- The due-date clause only ever answers a due-date verdict or
accepts. -/
theorem dueDateCheck_ne_statusMissing (s : String) :
    dueDateCheck s ≠ Verdict.statusMissing := by
  unfold dueDateCheck
  split_ifs with h
  · decide
  · split
    · split_ifs <;> decide
    · decide

/-- A status that passes the enum membership test is non-empty in the
validator's sense. -/
theorem isEmptyStr_of_statusIncluded (o : Option String)
    (h : statusIncluded o = true) : isEmptyStr o = false := by
  obtain ⟨s, rfl, _, hmem⟩ := statusIncluded_eq_true o h
  have hs : s = "open" ∨ s = "closed" := by
    have := List.elem_iff.mp hmem
    simpa [taskStatusValues] using this
  rcases hs with rfl | rfl <;> decide

/-- C4 amended: the validator checks in the order title-missing,
title-length, description-missing, description-length, then
status-INVALID before status-missing — so the status-missing verdict is
unreachable (the enum membership check already fails on an absent or
empty status), and a payload with valid title and description and an
absent or empty status is answered status-invalid. -/
theorem claim4_amended_status_invalid_checked_first (p : TaskPayload) :
    validateTask p ≠ Verdict.statusMissing ∧
    (isEmptyStr p.title = false → 5 ≤ (p.title.getD "").length →
     (p.title.getD "").length ≤ 100 → isEmptyStr p.description = false →
     (p.description.getD "").length ≤ 1000 →
     isEmptyStr p.status = true →
     validateTask p = Verdict.statusInvalid) := by
  constructor
  · intro h
    unfold validateTask at h
    split_ifs at h with h1 h2 h3 h4 h5 h6 h7 h8
    all_goals
      first
        | exact Verdict.noConfusion h
        | exact dueDateCheck_ne_statusMissing _ h
        | (have hinc : statusIncluded p.status = true := by assumption
           have hemp : isEmptyStr p.status = true := by assumption
           rw [isEmptyStr_of_statusIncluded p.status hinc] at hemp
           exact Bool.noConfusion hemp)
  · intro h1 h2 h3 h4 h5 h6
    have hsi : statusIncluded p.status = false :=
      statusIncluded_of_empty p.status h6
    unfold validateTask
    rw [if_neg (by simp [h1]), if_neg (by omega), if_neg (by simp [h4]),
      if_neg (by omega), if_pos (by simp [hsi])]

/-- C4 amended witness: the verdict on a concrete payload with valid
title and description and an absent status is status-invalid. -/
theorem claim4_amended_witness :
    validateTask
        { title := some "Valid title", description := some "Desc here",
          status := none, dueDate := some "01-01-2025" }
      = Verdict.statusInvalid :=
  (claim4_amended_status_invalid_checked_first
    { title := some "Valid title", description := some "Desc here",
      status := none, dueDate := some "01-01-2025" }).2
    (by decide) (by decide) (by decide) (by decide) (by decide) (by decide)

end TaskTracking
